import Mathlib

/-!
Verification of the Škoda CarConnectivity connector's entity-migration layer
(`vehicle.py`, `specification.py`, `service_partner.py`) and its logging shim
(`util_override.py`) against the repository's design specification.

Modelling conventions (shallow embedding of the Python source):
* Python objects are Lean records.  Object identity is modelled by a `Nat`
  object id (`objId`); construction threads an allocation counter `k`, and
  every constructor call allocates fresh ids starting at `k` and returns the
  next unused counter.  Re-parenting the *same* object keeps its `objId`;
  invoking a migration constructor allocates a new one.
* A Python attribute that may be absent from an instance (`hasattr` checks in
  the source) is an `Option` field; `none` means the attribute does not exist
  on the instance at all, which is distinct from an attribute that exists with
  value `none`.
* Parent references are stored as the parent's object id (`parentId`), which
  avoids cyclic records while keeping `E.F.parent == E` expressible as
  `a.parentId = e.objId`.
* Attribute payloads (strings, dates, booleans, enums) are modelled uniformly
  as `Option String`: the migration code only moves values around, never
  inspects them.
* Constructors that perform unguarded attribute accesses on the origin are
  embedded in `Except String`, where `Except.error` models a propagating
  Python `AttributeError`.
-/

/-- Model of the base framework's attribute container (`StringAttribute`,
`BooleanAttribute`, `DateAttribute`, `EnumAttribute`, `LevelAttribute`): a
named, parent-linked object with a settable value and connector tags.  The
concrete value kind is irrelevant to the migration code, so all payloads are
`Option String`. -/
structure Attribute where
  objId : Nat
  name : String
  parentId : Nat
  value : Option String
  tags : List String
deriving DecidableEq, Repr

/-- Allocation of a fresh attribute object, as done by the Python
`XAttribute(name=..., parent=self, tags=...)` constructor calls: fresh object
id, given parent, value unset. -/
def mkAttribute (nm : String) (parentId : Nat) (tags : List String) (k : Nat) :
    Attribute × Nat :=
  ({ objId := k, name := nm, parentId := parentId, value := none, tags := tags }, k + 1)

/-- Embedding of the `_copy_attribute_from_origin` helper shared verbatim by
`Engine`, `ExteriorDimensions`, `Gearbox` and `Specification`
(`specification.py`): if the origin possesses the attribute
(`hasattr(origin, attr_name)`), the same attribute object is installed on
`self` and re-parented (`source_attr.parent = self`); if the origin lacks it,
nothing is assigned, so the field stays absent on the new instance. -/
def copyAttributeFromOrigin (selfId : Nat) (src : Option Attribute) : Option Attribute :=
  match src with
  | some a => some { a with parentId := selfId }
  | none => none

/-- Modelled from the spec: `Capabilities` (`capability.py`, not under `src/`)
is the capability registry object attached to a vehicle; the migration code in
`vehicle.py` treats it as an opaque parent-linked object that is adopted by
re-parenting, so only identity and parent linkage are modelled. -/
structure Capabilities where
  objId : Nat
  parentId : Nat
deriving DecidableEq, Repr

/-- Fresh `Capabilities(vehicle=self)` allocation. -/
def Capabilities.fresh (parentId : Nat) (k : Nat) : Capabilities × Nat :=
  ({ objId := k, parentId := parentId }, k + 1)

/-- Modelled from the spec: `SkodaClimatization` (`climatization.py`, not under
`src/`) is a nested sub-entity migrated at the generic-vehicle level (spec
section 4.2); only identity and parent linkage matter to the claims. -/
structure Climatization where
  objId : Nat
  parentId : Nat
deriving DecidableEq, Repr

/-- Fresh climatization allocated by the base vehicle constructor. -/
def Climatization.fresh (parentId : Nat) (k : Nat) : Climatization × Nat :=
  ({ objId := k, parentId := parentId }, k + 1)

/-- Modelled from the spec: migration constructor
`SkodaClimatization(vehicle=self, origin=...)` allocates a new object owned by
the new vehicle (spec section 4.1: nested sub-entities are migrated via their
own migration constructor). -/
def Climatization.migrate (parentId : Nat) (_origin : Climatization) (k : Nat) :
    Climatization × Nat :=
  ({ objId := k, parentId := parentId }, k + 1)

/-- Modelled from the spec: the charging sub-entity of an electric vehicle
(`charging.py` / upstream `Charging`, not under `src/`).  Its observable state
is an opaque payload preserved by migration. -/
structure Charging where
  objId : Nat
  parentId : Nat
  state : Option String
deriving DecidableEq, Repr

/-- Modelled from the spec: the upstream `ElectricVehicle` base initializes a
default (empty) charging sub-entity owned by the new vehicle. -/
def Charging.fresh (parentId : Nat) (k : Nat) : Charging × Nat :=
  ({ objId := k, parentId := parentId, state := none }, k + 1)

/-- Modelled from the spec: `SkodaCharging(vehicle=self, origin=...)`
(`charging.py`, not under `src/`) is a migration constructor in the sense of
spec section 4.1: it allocates a new object owned by the new vehicle and
preserves the origin's observable state. -/
def SkodaCharging.migrate (parentId : Nat) (origin : Charging) (k : Nat) :
    Charging × Nat :=
  ({ objId := k, parentId := parentId, state := origin.state }, k + 1)

/-- Embedding of `ServicePartner` (`service_partner.py`): a single
`service_partner_id` attribute.  The field is `Option` because migration copies
it only when the origin possesses it. -/
structure ServicePartner where
  objId : Nat
  parentId : Option Nat
  service_partner_id : Option Attribute
deriving DecidableEq, Repr

/-- Fresh construction branch of `ServicePartner.__init__` (no origin):
`GenericObject` allocation followed by a fresh `service_partner_id`
attribute. -/
def ServicePartner.fresh (parentId : Option Nat) (k : Nat) : ServicePartner × Nat :=
  let selfId := k
  let ap := mkAttribute "service_partner_id" selfId ["connector_custom"] (k + 1)
  ({ objId := selfId, parentId := parentId, service_partner_id := some ap.1 }, ap.2)

/-- Migration branch of `ServicePartner.__init__` with
`_copy_attributes_from_origin` (`service_partner.py` lines 34-47): the base
object is allocated *without* forwarding the origin; a fresh
`service_partner_id` attribute is always created, and the origin's scalar
value is copied into it only when the origin possesses the attribute and its
value is not `None`.  No step of the body can raise in this model, so the
`except` fallback branch (which would re-create the same fresh attribute) is
unreachable.  The origin is only read, never assigned to. -/
def ServicePartner.migrate (parentId : Option Nat) (origin : ServicePartner) (k : Nat) :
    ServicePartner × Nat :=
  let selfId := k
  let ap := mkAttribute "service_partner_id" selfId ["connector_custom"] (k + 1)
  let a :=
    match origin.service_partner_id with
    | some oa =>
      match oa.value with
      | some v => { ap.1 with value := some v }
      | none => ap.1
    | none => ap.1
  ({ objId := selfId, parentId := parentId, service_partner_id := some a }, ap.2)

/-- Post-state of the origin after `ServicePartner.migrate`: the constructor
body (`service_partner.py` lines 41-47) performs no assignment to `origin` or
to `origin.service_partner_id` — it only reads `origin.service_partner_id.value`
— so the origin object is unchanged. -/
def ServicePartner.migrateOriginAfter (origin : ServicePartner) : ServicePartner :=
  origin

/-- Embedding of `Engine` (`specification.py`): three string attributes, each
optional because migration only installs fields the origin possesses. -/
structure Engine where
  objId : Nat
  parentId : Option Nat
  type : Option Attribute
  powerInKW : Option Attribute
  capacityInLiters : Option Attribute
deriving DecidableEq, Repr

/-- Fresh construction branch of `Engine.__init__`. -/
def Engine.fresh (parentId : Option Nat) (k : Nat) : Engine × Nat :=
  let selfId := k
  let tp := mkAttribute "type" selfId ["connector_custom"] (k + 1)
  let pw := mkAttribute "powerInKW" selfId ["connector_custom"] tp.2
  let cp := mkAttribute "capacityInLiters" selfId ["connector_custom"] pw.2
  ({ objId := selfId, parentId := parentId,
     type := some tp.1, powerInKW := some pw.1, capacityInLiters := some cp.1 }, cp.2)

/-- Migration branch of `Engine.__init__`: base-object allocation followed by
`_copy_attribute_from_origin` for each of the three fields. -/
def Engine.migrate (parentId : Option Nat) (origin : Engine) (k : Nat) : Engine × Nat :=
  let selfId := k
  ({ objId := selfId, parentId := parentId,
     type := copyAttributeFromOrigin selfId origin.type,
     powerInKW := copyAttributeFromOrigin selfId origin.powerInKW,
     capacityInLiters := copyAttributeFromOrigin selfId origin.capacityInLiters }, k + 1)

/-- Embedding of `ExteriorDimensions` (`specification.py`). -/
structure ExteriorDimensions where
  objId : Nat
  parentId : Option Nat
  lengthInMm : Option Attribute
  widthInMm : Option Attribute
  heightInMm : Option Attribute
deriving DecidableEq, Repr

/-- Fresh construction branch of `ExteriorDimensions.__init__`. -/
def ExteriorDimensions.fresh (parentId : Option Nat) (k : Nat) : ExteriorDimensions × Nat :=
  let selfId := k
  let ln := mkAttribute "lengthInMm" selfId ["connector_custom"] (k + 1)
  let wd := mkAttribute "widthInMm" selfId ["connector_custom"] ln.2
  let ht := mkAttribute "heightInMm" selfId ["connector_custom"] wd.2
  ({ objId := selfId, parentId := parentId,
     lengthInMm := some ln.1, widthInMm := some wd.1, heightInMm := some ht.1 }, ht.2)

/-- Migration branch of `ExteriorDimensions.__init__`. -/
def ExteriorDimensions.migrate (parentId : Option Nat) (origin : ExteriorDimensions)
    (k : Nat) : ExteriorDimensions × Nat :=
  let selfId := k
  ({ objId := selfId, parentId := parentId,
     lengthInMm := copyAttributeFromOrigin selfId origin.lengthInMm,
     widthInMm := copyAttributeFromOrigin selfId origin.widthInMm,
     heightInMm := copyAttributeFromOrigin selfId origin.heightInMm }, k + 1)

/-- Embedding of `Gearbox` (`specification.py`). -/
structure Gearbox where
  objId : Nat
  parentId : Option Nat
  type : Option Attribute
deriving DecidableEq, Repr

/-- Fresh construction branch of `Gearbox.__init__`. -/
def Gearbox.fresh (parentId : Option Nat) (k : Nat) : Gearbox × Nat :=
  let selfId := k
  let tp := mkAttribute "type" selfId ["connector_custom"] (k + 1)
  ({ objId := selfId, parentId := parentId, type := some tp.1 }, tp.2)

/-- Migration branch of `Gearbox.__init__`. -/
def Gearbox.migrate (parentId : Option Nat) (origin : Gearbox) (k : Nat) : Gearbox × Nat :=
  let selfId := k
  ({ objId := selfId, parentId := parentId,
     type := copyAttributeFromOrigin selfId origin.type }, k + 1)

/-- Embedding of `Specification` (`specification.py`): nine scalar attributes,
three nested sub-entities, plus the `engine_fuel_type` slot that only exists
when the legacy-field graft in `SkodaVehicle.__init__` (lines 85-87) creates
it — fresh construction never initializes it (`_initialize_attributes` does not
mention it), so its default state is absence. -/
structure Specification where
  objId : Nat
  parentId : Option Nat
  title : Option Attribute
  manufacturing_date : Option Attribute
  trim_level : Option Attribute
  system_code : Option Attribute
  system_model_id : Option Attribute
  body : Option Attribute
  exterior_colour : Option Attribute
  model_year : Option Attribute
  steering_wheel_position : Option Attribute
  engine_fuel_type : Option Attribute
  exteriorDimensions : Option ExteriorDimensions
  engine : Option Engine
  gearbox : Option Gearbox
deriving DecidableEq, Repr

/-- Fresh construction branch of `Specification.__init__`, i.e.
`_initialize_attributes`: all scalar attributes allocated fresh, then the three
nested objects constructed fresh in source order. -/
def Specification.fresh (parentId : Option Nat) (k : Nat) : Specification × Nat :=
  let selfId := k
  let ti := mkAttribute "title" selfId ["connector_custom"] (k + 1)
  let md := mkAttribute "manufacturing_date" selfId ["connector_custom"] ti.2
  let tl := mkAttribute "trim_level" selfId ["connector_custom"] md.2
  let sc := mkAttribute "system_code" selfId ["connector_custom"] tl.2
  let sm := mkAttribute "system_model_id" selfId ["connector_custom"] sc.2
  let bd := mkAttribute "body" selfId ["connector_custom"] sm.2
  let ec := mkAttribute "exterior_colour" selfId ["connector_custom"] bd.2
  let my := mkAttribute "model_year" selfId ["connector_custom"] ec.2
  let sw := mkAttribute "steering_wheel_position" selfId ["connector_custom"] my.2
  let dims := ExteriorDimensions.fresh (some selfId) sw.2
  let eng := Engine.fresh (some selfId) dims.2
  let gb := Gearbox.fresh (some selfId) eng.2
  ({ objId := selfId, parentId := parentId,
     title := some ti.1, manufacturing_date := some md.1, trim_level := some tl.1,
     system_code := some sc.1, system_model_id := some sm.1, body := some bd.1,
     exterior_colour := some ec.1, model_year := some my.1,
     steering_wheel_position := some sw.1,
     engine_fuel_type := none,
     exteriorDimensions := some dims.1, engine := some eng.1, gearbox := some gb.1 }, gb.2)

/-- Migration branch of `Specification.__init__` (`specification.py` lines
131-148): `_copy_attribute_from_origin` on the nine scalar fields, then
`_copy_nested_object_from_origin` on the three nested objects — each nested
object is built by its own class constructor, with the origin's nested object
forwarded when present and omitted (fresh default) when absent.  The legacy
`engine_fuel_type` slot is not in the copy list, so it is never installed by
this constructor. -/
def Specification.migrate (parentId : Option Nat) (origin : Specification) (k : Nat) :
    Specification × Nat :=
  let selfId := k
  let dims :=
    match origin.exteriorDimensions with
    | some d => ExteriorDimensions.migrate (some selfId) d (k + 1)
    | none => ExteriorDimensions.fresh (some selfId) (k + 1)
  let eng :=
    match origin.engine with
    | some e => Engine.migrate (some selfId) e dims.2
    | none => Engine.fresh (some selfId) dims.2
  let gb :=
    match origin.gearbox with
    | some g => Gearbox.migrate (some selfId) g eng.2
    | none => Gearbox.fresh (some selfId) eng.2
  ({ objId := selfId, parentId := parentId,
     title := copyAttributeFromOrigin selfId origin.title,
     manufacturing_date := copyAttributeFromOrigin selfId origin.manufacturing_date,
     trim_level := copyAttributeFromOrigin selfId origin.trim_level,
     system_code := copyAttributeFromOrigin selfId origin.system_code,
     system_model_id := copyAttributeFromOrigin selfId origin.system_model_id,
     body := copyAttributeFromOrigin selfId origin.body,
     exterior_colour := copyAttributeFromOrigin selfId origin.exterior_colour,
     model_year := copyAttributeFromOrigin selfId origin.model_year,
     steering_wheel_position := copyAttributeFromOrigin selfId origin.steering_wheel_position,
     engine_fuel_type := none,
     exteriorDimensions := some dims.1, engine := some eng.1, gearbox := some gb.1 }, gb.2)

/-- The concrete vehicle class instantiated: `SkodaVehicle` (generic),
`SkodaElectricVehicle`, `SkodaCombustionVehicle`, `SkodaHybridVehicle`
(`vehicle.py`). -/
inductive VehicleType where
  | generic
  | electric
  | combustion
  | hybrid
deriving DecidableEq, Repr

/-- Embedding of the Python state of a Skoda vehicle instance (`vehicle.py`).
Fields that the source only installs conditionally (`hasattr`-guarded copies,
the electric-only `charging`, the legacy flat `spec_*` attributes, the
image-support cache) are `Option`.  `manufacturer` is owned by the upstream
`GenericVehicle` base and always exists.  `car_images` models `_car_images`
as an opaque payload and only exists when `SUPPORT_IMAGES` holds. -/
structure Vehicle where
  objId : Nat
  vtype : VehicleType
  manufacturer : Attribute
  climatization : Option Climatization
  capabilities : Option Capabilities
  in_motion : Option Attribute
  raw_api : Option Attribute
  extras : Option Attribute
  title : Option Attribute
  system_model_id : Option Attribute
  priority : Option Attribute
  device_platform : Option Attribute
  skoda_state : Option Attribute
  workshop_mode_enabled : Option Attribute
  service_partner : Option ServicePartner
  renders : Option Attribute
  composite_renders : Option Attribute
  composite_render_urls : Option Attribute
  specification : Option Specification
  spec_engine_fuel_type : Option Attribute
  spec_exterior_colour : Option Attribute
  spec_model_year : Option Attribute
  car_images : Option Unit
  charging : Option Charging
deriving DecidableEq, Repr

/-- Modelled from the spec: the Python `isinstance(origin, ElectricVehicle)`
test in `SkodaElectricVehicle.__init__`.  In the upstream class hierarchy the
hybrid vehicle type derives from the electric one (it exposes the charging
capability, spec sections 3 and 4.2), so both tags satisfy the test. -/
def Vehicle.isElectricInstance (v : Vehicle) : Bool :=
  v.vtype = VehicleType.electric || v.vtype = VehicleType.hybrid

/-- The legacy-field graft of `SkodaVehicle.__init__` (`vehicle.py` lines
84-93): when the origin has no `specification` sub-entity, a fresh default
`Specification` is built and each of the flat attributes
`spec_engine_fuel_type`, `spec_exterior_colour`, `spec_model_year` present on
the origin is installed on it (re-parented onto the specification) as
`engine_fuel_type`, `exterior_colour`, `model_year` respectively. -/
def specFromLegacy (selfId : Nat) (origin : Vehicle) (k : Nat) : Specification × Nat :=
  let fp := Specification.fresh (some selfId) k
  ({ fp.1 with
      engine_fuel_type :=
        match origin.spec_engine_fuel_type with
        | some a => some { a with parentId := fp.1.objId }
        | none => fp.1.engine_fuel_type,
      exterior_colour :=
        match origin.spec_exterior_colour with
        | some a => some { a with parentId := fp.1.objId }
        | none => fp.1.exterior_colour,
      model_year :=
        match origin.spec_model_year with
        | some a => some { a with parentId := fp.1.objId }
        | none => fp.1.model_year }, fp.2)

/-- The body of the migration branch of `SkodaVehicle.__init__` (`vehicle.py`
lines 36-95 plus line 121), run once the two unguarded origin accesses have
succeeded (`caps`, `im` are `origin.capabilities` and `origin.in_motion`).
The base `super().__init__(garage=garage, origin=origin)` behaviour is
modelled from the spec (section 4.2): base attributes (`manufacturer`) and the
base nested entity (`climatization`) are migrated at the generic level.  All
`hasattr`-guarded scalar copies are `copyAttributeFromOrigin`; the service
partner is adopted by re-parenting the origin's object itself (lines 68-70);
the specification is built by its migration constructor when the origin has
one and from the legacy graft otherwise (lines 81-93); `_car_images` is copied
only under image support (lines 94-95); finally the manufacturer value is
force-set to the brand string (line 121). -/
def SkodaVehicle.migrateBody (si : Bool) (vt : VehicleType) (origin : Vehicle)
    (caps : Capabilities) (im : Attribute) (k : Nat) : Vehicle × Nat :=
  let selfId := k
  let clim :=
    match origin.climatization with
    | some c =>
      let p := Climatization.migrate selfId c (k + 1)
      (some p.1, p.2)
    | none => ((none : Option Climatization), k + 1)
  let spec :=
    match origin.specification with
    | some os => Specification.migrate (some selfId) os clim.2
    | none => specFromLegacy selfId origin clim.2
  ({ objId := selfId, vtype := vt,
     manufacturer := { origin.manufacturer with parentId := selfId, value := some "Škoda" },
     climatization := clim.1,
     capabilities := some { caps with parentId := selfId },
     in_motion := some { im with parentId := selfId },
     raw_api := copyAttributeFromOrigin selfId origin.raw_api,
     extras := copyAttributeFromOrigin selfId origin.extras,
     title := copyAttributeFromOrigin selfId origin.title,
     system_model_id := copyAttributeFromOrigin selfId origin.system_model_id,
     priority := copyAttributeFromOrigin selfId origin.priority,
     device_platform := copyAttributeFromOrigin selfId origin.device_platform,
     skoda_state := copyAttributeFromOrigin selfId origin.skoda_state,
     workshop_mode_enabled := copyAttributeFromOrigin selfId origin.workshop_mode_enabled,
     service_partner := origin.service_partner.map (fun sp => { sp with parentId := some selfId }),
     renders := copyAttributeFromOrigin selfId origin.renders,
     composite_renders := copyAttributeFromOrigin selfId origin.composite_renders,
     composite_render_urls := copyAttributeFromOrigin selfId origin.composite_render_urls,
     specification := some spec.1,
     spec_engine_fuel_type := none, spec_exterior_colour := none, spec_model_year := none,
     car_images := if si then origin.car_images else none,
     charging := none }, spec.2)

/-- Migration branch of `SkodaVehicle.__init__`, control flow included.  The
accesses `origin.capabilities` (line 38), `origin.in_motion` (line 40) and
`origin._car_images` (line 95, only when `SUPPORT_IMAGES`) are *not* preceded
by `hasattr` checks, so an origin lacking them makes the constructor raise
`AttributeError`, modelled as `Except.error`.  `si` is `SUPPORT_IMAGES`. -/
def SkodaVehicle.migrateCore (si : Bool) (vt : VehicleType) (origin : Vehicle) (k : Nat) :
    Except String (Vehicle × Nat) :=
  match origin.capabilities, origin.in_motion with
  | none, _ => Except.error "AttributeError: capabilities"
  | some _, none => Except.error "AttributeError: in_motion"
  | some caps, some im =>
    if si && origin.car_images.isNone then Except.error "AttributeError: _car_images"
    else Except.ok (SkodaVehicle.migrateBody si vt origin caps im k)

/-- Fresh-construction branch of `SkodaVehicle.__init__` (`vehicle.py` lines
97-121).  The base `super().__init__(vin=...)` allocates the `manufacturer`
attribute and a default climatization (modelled from the spec, section 6);
line 99 then migrates `SkodaClimatization` from that default; all remaining
attributes and sub-entities are freshly allocated; line 121 force-sets the
manufacturer value. -/
def SkodaVehicle.freshCore (si : Bool) (vt : VehicleType) (k : Nat) : Vehicle × Nat :=
  let selfId := k
  let manu := mkAttribute "manufacturer" selfId [] (k + 1)
  let baseClim := Climatization.fresh selfId manu.2
  let clim := Climatization.migrate selfId baseClim.1 baseClim.2
  let caps := Capabilities.fresh selfId clim.2
  let im := mkAttribute "in_motion" selfId ["connector_custom"] caps.2
  let ra := mkAttribute "raw_api" selfId ["connector_custom"] im.2
  let ex := mkAttribute "extras" selfId ["connector_custom"] ra.2
  let rd := mkAttribute "renders" selfId ["connector_custom"] ex.2
  let cr := mkAttribute "composite_renders" selfId ["connector_custom"] rd.2
  let cu := mkAttribute "composite_render_urls" selfId ["connector_custom"] cr.2
  let ti := mkAttribute "title" selfId ["connector_custom"] cu.2
  let sm := mkAttribute "system_model_id" selfId ["connector_custom"] ti.2
  let pr := mkAttribute "priority" selfId ["connector_custom"] sm.2
  let dp := mkAttribute "device_platform" selfId ["connector_custom"] pr.2
  let ss := mkAttribute "skoda_state" selfId ["connector_custom"] dp.2
  let wm := mkAttribute "workshop_mode_enabled" selfId ["connector_custom"] ss.2
  let sp := ServicePartner.fresh (some selfId) wm.2
  let spec := Specification.fresh (some selfId) sp.2
  ({ objId := selfId, vtype := vt,
     manufacturer := { manu.1 with value := some "Škoda" },
     climatization := some clim.1,
     capabilities := some caps.1,
     in_motion := some im.1,
     raw_api := some ra.1,
     extras := some ex.1,
     title := some ti.1,
     system_model_id := some sm.1,
     priority := some pr.1,
     device_platform := some dp.1,
     skoda_state := some ss.1,
     workshop_mode_enabled := some wm.1,
     service_partner := some sp.1,
     renders := some rd.1,
     composite_renders := some cr.1,
     composite_render_urls := some cu.1,
     specification := some spec.1,
     spec_engine_fuel_type := none, spec_exterior_colour := none, spec_model_year := none,
     car_images := if si then some () else none,
     charging := none }, spec.2)

/-- `SkodaVehicle(origin=...)`: generic-class migration construction. -/
def SkodaVehicle.migrate (si : Bool) (origin : Vehicle) (k : Nat) :
    Except String (Vehicle × Nat) :=
  SkodaVehicle.migrateCore si VehicleType.generic origin k

/-- `SkodaVehicle()` fresh construction. -/
def SkodaVehicle.fresh (si : Bool) (k : Nat) : Vehicle × Nat :=
  SkodaVehicle.freshCore si VehicleType.generic k

/-- `SkodaElectricVehicle(origin=...)` (`vehicle.py` lines 130-135): the super
chain runs the whole `SkodaVehicle` migration (with the upstream
`ElectricVehicle` base providing a default charging sub-entity, modelled from
the spec); then, if the origin is an `ElectricVehicle` instance, `charging` is
rebuilt by `SkodaCharging(vehicle=self, origin=origin.charging)` — an
unguarded access to `origin.charging` — and otherwise by
`SkodaCharging(vehicle=self, origin=self.charging)`, migrating from the
instance's own default. -/
def SkodaElectricVehicle.migrate (si : Bool) (origin : Vehicle) (k : Nat) :
    Except String (Vehicle × Nat) :=
  match SkodaVehicle.migrateCore si VehicleType.electric origin k with
  | Except.error e => Except.error e
  | Except.ok vp =>
    let v := vp.1
    let defCh := Charging.fresh v.objId vp.2
    if origin.isElectricInstance then
      match origin.charging with
      | some oc =>
        let ch := SkodaCharging.migrate v.objId oc defCh.2
        Except.ok ({ v with charging := some ch.1 }, ch.2)
      | none => Except.error "AttributeError: charging"
    else
      let ch := SkodaCharging.migrate v.objId defCh.1 defCh.2
      Except.ok ({ v with charging := some ch.1 }, ch.2)

/-- `SkodaElectricVehicle()` fresh construction (`vehicle.py` lines 137-138):
the super chain runs the fresh `SkodaVehicle` construction, the upstream
`ElectricVehicle` base provides a default charging sub-entity (modelled from
the spec), and `charging` is then rebuilt by migrating from that default. -/
def SkodaElectricVehicle.fresh (si : Bool) (k : Nat) : Vehicle × Nat :=
  let vp := SkodaVehicle.freshCore si VehicleType.electric k
  let defCh := Charging.fresh vp.1.objId vp.2
  let ch := SkodaCharging.migrate vp.1.objId defCh.1 defCh.2
  ({ vp.1 with charging := some ch.1 }, ch.2)

/-- `SkodaCombustionVehicle(origin=...)` (`vehicle.py` lines 147-148): pure
super-chain migration. -/
def SkodaCombustionVehicle.migrate (si : Bool) (origin : Vehicle) (k : Nat) :
    Except String (Vehicle × Nat) :=
  SkodaVehicle.migrateCore si VehicleType.combustion origin k

/-- `SkodaCombustionVehicle()` fresh construction. -/
def SkodaCombustionVehicle.fresh (si : Bool) (k : Nat) : Vehicle × Nat :=
  SkodaVehicle.freshCore si VehicleType.combustion k

/-- `SkodaHybridVehicle(origin=...)` (`vehicle.py` lines 159-160): pure
super-chain migration; the upstream `HybridVehicle` base provides a default
charging sub-entity (modelled from the spec, section 3: hybrids expose the
charging capability). -/
def SkodaHybridVehicle.migrate (si : Bool) (origin : Vehicle) (k : Nat) :
    Except String (Vehicle × Nat) :=
  match SkodaVehicle.migrateCore si VehicleType.hybrid origin k with
  | Except.error e => Except.error e
  | Except.ok vp =>
    let defCh := Charging.fresh vp.1.objId vp.2
    Except.ok ({ vp.1 with charging := some defCh.1 }, defCh.2)

/-- `SkodaHybridVehicle()` fresh construction. -/
def SkodaHybridVehicle.fresh (si : Bool) (k : Nat) : Vehicle × Nat :=
  let vp := SkodaVehicle.freshCore si VehicleType.hybrid k
  let defCh := Charging.fresh vp.1.objId vp.2
  ({ vp.1 with charging := some defCh.1 }, defCh.2)

/-- Log severities used by `util_override.py`: `log.debug` vs `log.info`. -/
inductive LogSeverity where
  | debug
  | info
deriving DecidableEq, Repr

/-- The environment toggle test of `log_extra_keys` (`util_override.py` line
42): `os.getenv('CARCONNECTIVITY_SHOW_EXTRA_KEYS', '0') in ('1', 'true', 'True')`.
`env` is the raw environment value, `none` when the variable is unset (so the
default `"0"` applies). -/
def showExtraKeys (env : Option String) : Bool :=
  let v := env.getD "0"
  (v == "1") || (v == "true") || (v == "True")

/-- Embedding of `_truncate` (`util_override.py` lines 20-27) applied to the
serialized rendering `s` (the result of `json.dumps`, or of the `str` fallback
when serialization fails — the serializer itself is environment code, so the
function is modelled on its string result): renderings longer than 300
characters are cut to their first 300 characters plus a literal `'...'`
suffix; shorter renderings pass through unchanged.  Defined on the string's
character list so that Python `len` and slicing are list length and `take`. -/
def truncateRendering (s : String) : String :=
  if s.data.length > 300 then String.mk (s.data.take 300) ++ "..." else s

/-- One emitted log line of `log_extra_keys`: severity, the extra-key set
interpolated into the message, and the truncated sanitized rendering
interpolated into the message. -/
structure LogLine where
  severity : LogSeverity
  extraKeys : Finset String
  rendering : String
deriving DecidableEq

/-- Embedding of `log_extra_keys` (`util_override.py` lines 30-49).  `env` is
the `CARCONNECTIVITY_SHOW_EXTRA_KEYS` environment value; `dictKeys` is
`set(dictionary.keys())`; `serializedSanitized` is the serialized form of
`config_remove_credentials(dictionary.copy())` (the credential scrubber and
`json.dumps` are environment code, so the serialized result is a parameter);
`allowed_keys` is `None` or a key set.  Returns `none` when nothing is logged
and the log line otherwise. -/
def log_extra_keys (env : Option String) (dictKeys : Finset String)
    (serializedSanitized : String) (allowed_keys : Option (Finset String)) :
    Option LogLine :=
  let allowed := allowed_keys.getD ∅
  let extra := dictKeys \ allowed
  if extra = ∅ then none
  else
    some { severity := if showExtraKeys env then LogSeverity.info else LogSeverity.debug,
           extraKeys := extra,
           rendering := truncateRendering serializedSanitized }

/-- The copy discipline of the guarded scalar copies, as a statement-level
predicate: whenever the origin possesses the attribute, the new entity holds
the same attribute object re-parented onto itself (value, name and identity
preserved, parent updated). -/
def copiedReparented (src dst : Option Attribute) (selfId : Nat) : Prop :=
  ∀ a, src = some a → dst = some { a with parentId := selfId }

/-- Partial-origin behaviour of a guarded scalar copy: an attribute the origin
lacks is also absent (not default-initialized) on the new entity. -/
def absentStaysAbsent (src dst : Option Attribute) : Prop :=
  src = none → dst = none

/-- All object ids reachable in a `ServicePartner` are below `k` (the object
was allocated before the current counter position). -/
def ServicePartner.idsLt (sp : ServicePartner) (k : Nat) : Bool :=
  decide (sp.objId < k) &&
    (match sp.service_partner_id with
     | some a => decide (a.objId < k)
     | none => true)

/-- A concrete attribute fixture used by witnesses. -/
def attrFix (oid : Nat) (nm : String) (pid : Nat) (v : Option String) : Attribute :=
  { objId := oid, name := nm, parentId := pid, value := v, tags := ["connector_custom"] }

/-- A concrete, fully-populated origin `Specification` fixture (ids below 50). -/
def specOriginFix : Specification :=
  { objId := 10, parentId := some 1,
    title := some (attrFix 11 "title" 10 (some "Octavia")),
    manufacturing_date := some (attrFix 12 "manufacturing_date" 10 (some "2023-01-01")),
    trim_level := some (attrFix 13 "trim_level" 10 (some "Style")),
    system_code := some (attrFix 14 "system_code" 10 none),
    system_model_id := some (attrFix 15 "system_model_id" 10 none),
    body := some (attrFix 16 "body" 10 (some "Combi")),
    exterior_colour := some (attrFix 17 "exterior_colour" 10 (some "red")),
    model_year := some (attrFix 18 "model_year" 10 (some "2023")),
    steering_wheel_position := some (attrFix 19 "steering_wheel_position" 10 none),
    engine_fuel_type := none,
    exteriorDimensions := some
      { objId := 20, parentId := some 10,
        lengthInMm := some (attrFix 21 "lengthInMm" 20 (some "4689")),
        widthInMm := some (attrFix 22 "widthInMm" 20 (some "1829")),
        heightInMm := some (attrFix 23 "heightInMm" 20 (some "1469")) },
    engine := some
      { objId := 24, parentId := some 10,
        type := some (attrFix 25 "type" 24 (some "TSI")),
        powerInKW := some (attrFix 26 "powerInKW" 24 (some "110")),
        capacityInLiters := some (attrFix 27 "capacityInLiters" 24 (some "1.5")) },
    gearbox := some
      { objId := 28, parentId := some 10,
        type := some (attrFix 29 "type" 28 (some "A7F")) } }

/-- A concrete origin `Specification` lacking its `title` attribute. -/
def specOriginNoTitle : Specification :=
  { specOriginFix with title := none }

/-- A concrete origin `ServicePartner` fixture with a set identifier value. -/
def spOriginFix : ServicePartner :=
  { objId := 30, parentId := some 1,
    service_partner_id := some (attrFix 31 "service_partner_id" 30 (some "CZE10041")) }

/-- A concrete origin `ServicePartner` lacking its identifier attribute. -/
def spOriginNoId : ServicePartner :=
  { objId := 30, parentId := some 1, service_partner_id := none }

/-- A concrete, fully-populated origin vehicle fixture (ids below 50). -/
def vehicleOriginFix : Vehicle :=
  { objId := 1, vtype := VehicleType.generic,
    manufacturer := attrFix 2 "manufacturer" 1 (some "Škoda"),
    climatization := some { objId := 3, parentId := 1 },
    capabilities := some { objId := 4, parentId := 1 },
    in_motion := some (attrFix 5 "in_motion" 1 (some "False")),
    raw_api := some (attrFix 6 "raw_api" 1 none),
    extras := some (attrFix 7 "extras" 1 none),
    title := some (attrFix 8 "title" 1 (some "Skoda Octavia")),
    system_model_id := some (attrFix 9 "system_model_id" 1 (some "NX")),
    priority := some (attrFix 32 "priority" 1 none),
    device_platform := some (attrFix 33 "device_platform" 1 (some "MEB")),
    skoda_state := some (attrFix 34 "skoda_state" 1 (some "ACTIVATED")),
    workshop_mode_enabled := some (attrFix 35 "workshop_mode_enabled" 1 (some "False")),
    service_partner := some spOriginFix,
    renders := some (attrFix 36 "renders" 1 none),
    composite_renders := some (attrFix 37 "composite_renders" 1 none),
    composite_render_urls := some (attrFix 38 "composite_render_urls" 1 none),
    specification := some specOriginFix,
    spec_engine_fuel_type := none, spec_exterior_colour := none, spec_model_year := none,
    car_images := none,
    charging := none }

/-- The origin vehicle fixture stripped of its `capabilities` attribute. -/
def vehicleOriginNoCaps : Vehicle :=
  { vehicleOriginFix with capabilities := none }

/-- An origin vehicle fixture with no `specification` sub-entity but with the
legacy flat `spec_exterior_colour` and `spec_model_year` attributes set
(`spec_engine_fuel_type` absent). -/
def vehicleOriginLegacy : Vehicle :=
  { vehicleOriginFix with
    specification := none,
    spec_exterior_colour := some (attrFix 39 "spec_exterior_colour" 1 (some "red")),
    spec_model_year := some (attrFix 40 "spec_model_year" 1 (some "2021")) }

/-- An electric origin vehicle fixture carrying charging state. -/
def vehicleOriginElectric : Vehicle :=
  { vehicleOriginFix with
    vtype := VehicleType.electric,
    charging := some { objId := 41, parentId := 1, state := some "charging" } }

/-- A 301-character rendering used to exercise the truncation cap. -/
def longFix : String := String.mk (List.replicate 301 'x')

/-- The environment toggle escalates exactly on the three exact values the
source enumerates: `'1'`, `'true'`, `'True'`. -/
theorem showExtraKeys_iff (env : Option String) :
    showExtraKeys env = true ↔
      env = some "1" ∨ env = some "true" ∨ env = some "True" := by
  unfold showExtraKeys
  cases env with
  | none => simp
  | some v =>
    simp
    exact or_assoc

/-- C7 (confirmed): `log_extra_keys` treats an absent allowed-keys argument as
the empty set, computes the set difference of the dictionary's keys minus the
allowed keys, emits no log line exactly when that difference is empty, and on
keys a, b, secret with allowed keys a it detects exactly the extras b and
secret. -/
theorem C7_extra_key_detection :
    (∀ env dk ss, log_extra_keys env dk ss none = log_extra_keys env dk ss (some ∅)) ∧
    (∀ env dk ss ak, log_extra_keys env dk ss ak = none ↔ dk \ ak.getD ∅ = ∅) ∧
    ({"a", "b", "secret"} : Finset String) \ {"a"} = {"b", "secret"} ∧
    (log_extra_keys none {"a", "b", "secret"} "x" (some {"a"})).map LogLine.extraKeys
      = some {"b", "secret"} := by
  refine ⟨fun env dk ss => rfl, fun env dk ss ak => ?_, by decide, by decide⟩
  simp only [log_extra_keys]
  by_cases h : dk \ ak.getD ∅ = ∅ <;> simp [h]

/-- C8 (confirmed): the rendering emitted by `log_extra_keys` is truncated by
`_truncate` with a 300-character cap — a serialized form longer than 300
characters is cut to its first 300 characters plus the literal `'...'` suffix,
hence ends with an ellipsis and has at most 303 characters, while a serialized
form of at most 300 characters is rendered unchanged. -/
theorem C8_truncation_cap (s : String) :
    (300 < s.length →
      truncateRendering s = String.mk (s.data.take 300) ++ "..." ∧
      (∃ t : String, truncateRendering s = t ++ "...") ∧
      (truncateRendering s).length ≤ 303) ∧
    (s.length ≤ 300 → truncateRendering s = s) := by
  constructor
  · intro h
    have hgt : s.data.length > 300 := h
    have he : truncateRendering s = String.mk (s.data.take 300) ++ "..." := by
      unfold truncateRendering
      rw [if_pos hgt]
    refine ⟨he, ⟨String.mk (s.data.take 300), he⟩, ?_⟩
    rw [he]
    have h2 : (String.mk (s.data.take 300) ++ "...").length
        = (s.data.take 300 ++ "...".data).length := rfl
    have h3 : "...".data.length = 3 := by decide
    rw [h2, List.length_append, h3, List.length_take]
    omega
  · intro h
    have hle : ¬ (s.data.length > 300) := Nat.not_lt.mpr h
    unfold truncateRendering
    rw [if_neg hle]

set_option maxRecDepth 4000 in
/-- Witness for C8 at a concrete 301-character rendering and a concrete short
rendering. -/
theorem C8_truncation_cap_witness :
    (truncateRendering longFix).length ≤ 303 ∧ truncateRendering "ab" = "ab" :=
  ⟨((C8_truncation_cap longFix).1 (by decide)).2.2, (C8_truncation_cap "ab").2 (by decide)⟩

/-- C6 (corrected) counterexample: the value `TRUE` is a case-insensitive
match of `true` (its lowercasing is `true`), so the claim demands INFO, but
the code's exact-membership test `in ('1', 'true', 'True')` leaves the log
line at DEBUG. -/
theorem C6_env_toggle_counterexample :
    (log_extra_keys (some "TRUE") {"b"} "x" none).map LogLine.severity
      = some LogSeverity.debug ∧
    "TRUE".data.map Char.toLower = "true".data := by
  exact ⟨by decide, by decide⟩

/-- C6 (amended): an emitted log line has INFO severity if and only if the
`CARCONNECTIVITY_SHOW_EXTRA_KEYS` environment value is exactly `'1'`, `'true'`
or `'True'`; every other value — other casings of `true` such as `'TRUE'`
included — and the unset case stay at DEBUG. -/
theorem C6_amended_env_toggle (env : Option String) (dk : Finset String) (ss : String)
    (ak : Option (Finset String)) (line : LogLine)
    (h : log_extra_keys env dk ss ak = some line) :
    line.severity = LogSeverity.info ↔
      env = some "1" ∨ env = some "true" ∨ env = some "True" := by
  simp only [log_extra_keys] at h
  by_cases he : dk \ ak.getD ∅ = ∅
  · simp [he] at h
  · rw [if_neg he] at h
    injection h with h1
    subst h1
    rw [← showExtraKeys_iff env]
    cases hb : showExtraKeys env <;> simp [hb]

/-- Witness for C6 (amended) at the concrete environment value `'1'`. -/
theorem C6_amended_env_toggle_witness :
    (({ severity := LogSeverity.info, extraKeys := {"b"}, rendering := "x" } : LogLine).severity
        = LogSeverity.info) ↔
      ((some "1" : Option String) = some "1" ∨ (some "1" : Option String) = some "true" ∨
        (some "1" : Option String) = some "True") :=
  C6_amended_env_toggle (some "1") {"b"} "x" none
    { severity := LogSeverity.info, extraKeys := {"b"}, rendering := "x" } (by decide)

/-- Extracting the first component of a successful `Except` pair result. -/
theorem ok_fst {e a b : Type} {x : a × b} {v : a} {k2 : b}
    (h : (Except.ok x : Except e (a × b)) = Except.ok (v, k2)) : v = x.1 := by
  injection h with h1
  exact congrArg Prod.fst h1.symm

/-- A successful vehicle migration means the origin possessed `capabilities`
and `in_motion`, and the result is exactly the migration body applied to
them. -/
theorem migrateCore_ok_body (si : Bool) (vt : VehicleType) (o : Vehicle) (k : Nat)
    (v : Vehicle) (k2 : Nat)
    (h : SkodaVehicle.migrateCore si vt o k = Except.ok (v, k2)) :
    ∃ caps im, o.capabilities = some caps ∧ o.in_motion = some im ∧
      (v, k2) = SkodaVehicle.migrateBody si vt o caps im k := by
  unfold SkodaVehicle.migrateCore at h
  cases hc : o.capabilities with
  | none => simp [hc] at h
  | some caps =>
    cases hi : o.in_motion with
    | none => simp [hc, hi] at h
    | some im =>
      simp only [hc, hi] at h
      by_cases hsi : si && o.car_images.isNone
      · rw [if_pos hsi] at h
        simp at h
      · rw [if_neg hsi] at h
        injection h with h1
        exact ⟨caps, im, rfl, rfl, h1.symm⟩

/-- C9 (confirmed): migrating a `ServicePartner` always creates a fresh
`service_partner_id` attribute object (a new object, distinct from the
origin's attribute) whose parent is the new instance; the origin's scalar
value is copied into it exactly when it is not `None` (a `None` value leaves
the fresh attribute at its default), and the origin — whose attribute object
is never re-parented — is left unchanged by the migration. -/
theorem C9_service_partner_value_copy (p : Option Nat) (origin : ServicePartner) (k : Nat)
    (hk : ServicePartner.idsLt origin k = true) :
    ∃ a, (ServicePartner.migrate p origin k).1.service_partner_id = some a ∧
      a.parentId = (ServicePartner.migrate p origin k).1.objId ∧
      (∀ oa, origin.service_partner_id = some oa → a.objId ≠ oa.objId) ∧
      (∀ oa v, origin.service_partner_id = some oa → oa.value = some v → a.value = some v) ∧
      (∀ oa, origin.service_partner_id = some oa → oa.value = none → a.value = none) ∧
      (origin.service_partner_id = none → a.value = none) ∧
      ServicePartner.migrateOriginAfter origin = origin := by
  cases ho : origin.service_partner_id with
  | none =>
    refine ⟨{ objId := k + 1, name := "service_partner_id", parentId := k,
              value := none, tags := ["connector_custom"] }, ?_, rfl, ?_, ?_, ?_, ?_, rfl⟩
    · simp [ServicePartner.migrate, mkAttribute, ho]
    · intro oa hoa
      simp at hoa
    · intro oa v hoa
      simp at hoa
    · intro oa hoa
      simp at hoa
    · intro _
      rfl
  | some oa =>
    have hlt : oa.objId < k := by
      simp [ServicePartner.idsLt, ho] at hk
      exact hk.2
    cases hv : oa.value with
    | none =>
      refine ⟨{ objId := k + 1, name := "service_partner_id", parentId := k,
                value := none, tags := ["connector_custom"] }, ?_, rfl, ?_, ?_, ?_, ?_, rfl⟩
      · simp [ServicePartner.migrate, mkAttribute, ho, hv]
      · intro ob hob
        injection hob with hob1
        subst hob1
        simp
        omega
      · intro ob v hob hv2
        injection hob with hob1
        subst hob1
        rw [hv] at hv2
        simp at hv2
      · intro _ _ _
        rfl
      · intro hnone
        simp at hnone
    | some v0 =>
      refine ⟨{ objId := k + 1, name := "service_partner_id", parentId := k,
                value := some v0, tags := ["connector_custom"] }, ?_, rfl, ?_, ?_, ?_, ?_, rfl⟩
      · simp [ServicePartner.migrate, mkAttribute, ho, hv]
      · intro ob hob
        injection hob with hob1
        subst hob1
        simp
        omega
      · intro ob v hob hv2
        injection hob with hob1
        subst hob1
        rw [hv] at hv2
        injection hv2 with hv3
        subst hv3
        rfl
      · intro ob hob hv2
        injection hob with hob1
        subst hob1
        rw [hv] at hv2
        simp at hv2
      · intro hnone
        simp at hnone

/-- Witness for C9 at a concrete origin service partner whose identifier
attribute (object id 31) carries a set value. -/
theorem C9_service_partner_value_copy_witness :
    ∃ a, (ServicePartner.migrate (some 100) spOriginFix 100).1.service_partner_id = some a ∧
      a.value = some "CZE10041" ∧ a.objId ≠ 31 := by
  obtain ⟨a, h1, _, h3, h4, _, _, _⟩ :=
    C9_service_partner_value_copy (some 100) spOriginFix 100 (by decide)
  exact ⟨a, h1, h4 _ _ rfl rfl, h3 _ rfl⟩

/-- C3 (confirmed): for every entity migrated from an origin, every declared
scalar field that the origin possesses with value V is carried into the new
instance with the same value and with its parent reference updated to the new
instance (not the origin). -/
theorem C3_origin_round_trip :
    (∀ p (o : Engine) k,
      copiedReparented o.type (Engine.migrate p o k).1.type (Engine.migrate p o k).1.objId ∧
      copiedReparented o.powerInKW (Engine.migrate p o k).1.powerInKW
        (Engine.migrate p o k).1.objId ∧
      copiedReparented o.capacityInLiters (Engine.migrate p o k).1.capacityInLiters
        (Engine.migrate p o k).1.objId) ∧
    (∀ p (o : ExteriorDimensions) k,
      copiedReparented o.lengthInMm (ExteriorDimensions.migrate p o k).1.lengthInMm
        (ExteriorDimensions.migrate p o k).1.objId ∧
      copiedReparented o.widthInMm (ExteriorDimensions.migrate p o k).1.widthInMm
        (ExteriorDimensions.migrate p o k).1.objId ∧
      copiedReparented o.heightInMm (ExteriorDimensions.migrate p o k).1.heightInMm
        (ExteriorDimensions.migrate p o k).1.objId) ∧
    (∀ p (o : Gearbox) k,
      copiedReparented o.type (Gearbox.migrate p o k).1.type (Gearbox.migrate p o k).1.objId) ∧
    (∀ p (o : Specification) k,
      copiedReparented o.title (Specification.migrate p o k).1.title k ∧
      copiedReparented o.manufacturing_date (Specification.migrate p o k).1.manufacturing_date k ∧
      copiedReparented o.trim_level (Specification.migrate p o k).1.trim_level k ∧
      copiedReparented o.system_code (Specification.migrate p o k).1.system_code k ∧
      copiedReparented o.system_model_id (Specification.migrate p o k).1.system_model_id k ∧
      copiedReparented o.body (Specification.migrate p o k).1.body k ∧
      copiedReparented o.exterior_colour (Specification.migrate p o k).1.exterior_colour k ∧
      copiedReparented o.model_year (Specification.migrate p o k).1.model_year k ∧
      copiedReparented o.steering_wheel_position
        (Specification.migrate p o k).1.steering_wheel_position k ∧
      (Specification.migrate p o k).1.objId = k) ∧
    (∀ p (o : ServicePartner) k oa, o.service_partner_id = some oa →
      ∃ a, (ServicePartner.migrate p o k).1.service_partner_id = some a ∧
        a.value = oa.value ∧ a.parentId = (ServicePartner.migrate p o k).1.objId) ∧
    (∀ si o k v k2, SkodaVehicle.migrate si o k = Except.ok (v, k2) →
      copiedReparented o.in_motion v.in_motion v.objId ∧
      copiedReparented o.raw_api v.raw_api v.objId ∧
      copiedReparented o.extras v.extras v.objId ∧
      copiedReparented o.title v.title v.objId ∧
      copiedReparented o.system_model_id v.system_model_id v.objId ∧
      copiedReparented o.priority v.priority v.objId ∧
      copiedReparented o.device_platform v.device_platform v.objId ∧
      copiedReparented o.skoda_state v.skoda_state v.objId ∧
      copiedReparented o.workshop_mode_enabled v.workshop_mode_enabled v.objId ∧
      copiedReparented o.renders v.renders v.objId ∧
      copiedReparented o.composite_renders v.composite_renders v.objId ∧
      copiedReparented o.composite_render_urls v.composite_render_urls v.objId) := by
  refine ⟨?_, ?_, ?_, ?_, ?_, ?_⟩
  · intro p o k
    refine ⟨?_, ?_, ?_⟩ <;> intro a ha <;>
      simp [Engine.migrate, copyAttributeFromOrigin, ha]
  · intro p o k
    refine ⟨?_, ?_, ?_⟩ <;> intro a ha <;>
      simp [ExteriorDimensions.migrate, copyAttributeFromOrigin, ha]
  · intro p o k
    intro a ha
    simp [Gearbox.migrate, copyAttributeFromOrigin, ha]
  · intro p o k
    refine ⟨?_, ?_, ?_, ?_, ?_, ?_, ?_, ?_, ?_, rfl⟩ <;> intro a ha <;>
      simp [Specification.migrate, copyAttributeFromOrigin, ha]
  · intro p o k oa hoa
    cases hv : oa.value with
    | none =>
      refine ⟨{ objId := k + 1, name := "service_partner_id", parentId := k,
                value := none, tags := ["connector_custom"] }, ?_, rfl, rfl⟩
      simp [ServicePartner.migrate, mkAttribute, hoa, hv]
    | some v0 =>
      refine ⟨{ objId := k + 1, name := "service_partner_id", parentId := k,
                value := some v0, tags := ["connector_custom"] }, ?_, rfl, rfl⟩
      simp [ServicePartner.migrate, mkAttribute, hoa, hv]
  · intro si o k v k2 h
    obtain ⟨caps, im, hc, hi, heq⟩ :=
      migrateCore_ok_body si VehicleType.generic o k v k2 h
    have hv : v = (SkodaVehicle.migrateBody si VehicleType.generic o caps im k).1 :=
      congrArg Prod.fst heq
    subst hv
    refine ⟨?_, ?_, ?_, ?_, ?_, ?_, ?_, ?_, ?_, ?_, ?_, ?_⟩
    · intro a ha
      rw [hi] at ha
      injection ha with ha1
      subst ha1
      rfl
    all_goals
      intro a ha
    all_goals
      simp [SkodaVehicle.migrateBody, copyAttributeFromOrigin, ha]

/-- Witness for C3 at the concrete fully-populated origin fixtures: the
vehicle migration carries the origin's `title` attribute (value preserved,
parent moved to the new vehicle), and the specification migration carries the
origin's `title` attribute likewise. -/
theorem C3_origin_round_trip_witness :
    (∃ v k2, SkodaVehicle.migrate false vehicleOriginFix 100 = Except.ok (v, k2) ∧
      v.title = some { attrFix 8 "title" 1 (some "Skoda Octavia") with parentId := v.objId }) ∧
    (Specification.migrate (some 200) specOriginFix 200).1.title
      = some { attrFix 11 "title" 10 (some "Octavia") with parentId := 200 } := by
  constructor
  · obtain ⟨v, k2, hm⟩ :
        ∃ v k2, SkodaVehicle.migrate false vehicleOriginFix 100 = Except.ok (v, k2) :=
      ⟨_, _, rfl⟩
    refine ⟨v, k2, hm, ?_⟩
    exact (C3_origin_round_trip.2.2.2.2.2 false vehicleOriginFix 100 v k2 hm).2.2.2.1 _ rfl
  · exact (C3_origin_round_trip.2.2.2.1 (some 200) specOriginFix 200).1 _ rfl

/-- C1 (corrected) counterexample: migrating a `SkodaVehicle` from an origin
lacking `capabilities` raises out of the constructor (the access at
`vehicle.py` line 38 has no existence check), and migrating a `Specification`
from an origin lacking `title` leaves `title` absent on the new instance —
not at the default value a fresh construction would give it. -/
theorem C1_partial_origin_counterexample :
    SkodaVehicle.migrate false vehicleOriginNoCaps 100
      = Except.error "AttributeError: capabilities" ∧
    (Specification.migrate (some 100) specOriginNoTitle 100).1.title = none ∧
    (Specification.fresh (some 100) 100).1.title.isSome = true :=
  ⟨rfl, rfl, rfl⟩

/-- C1 (amended): guarded copies tolerate a missing origin field without
raising, but absence leaves that field absent on the new entity rather than
default-initialized; default construction on absence happens only for the
nested sub-entity slots (a specification's exterior dimensions, engine and
gearbox, the vehicle's specification) and for the service partner's
identifier attribute; the vehicle constructor accesses `origin.capabilities`
and `origin.in_motion` without existence checks, so migration from an origin
lacking either raises, while origins with those two fields (and, under image
support, `_car_images`) migrate without any exception regardless of which
guarded fields are missing. -/
theorem C1_amended_partial_origin :
    (∀ p (o : Specification) k,
      absentStaysAbsent o.title (Specification.migrate p o k).1.title ∧
      absentStaysAbsent o.manufacturing_date (Specification.migrate p o k).1.manufacturing_date ∧
      absentStaysAbsent o.trim_level (Specification.migrate p o k).1.trim_level ∧
      absentStaysAbsent o.system_code (Specification.migrate p o k).1.system_code ∧
      absentStaysAbsent o.system_model_id (Specification.migrate p o k).1.system_model_id ∧
      absentStaysAbsent o.body (Specification.migrate p o k).1.body ∧
      absentStaysAbsent o.exterior_colour (Specification.migrate p o k).1.exterior_colour ∧
      absentStaysAbsent o.model_year (Specification.migrate p o k).1.model_year ∧
      absentStaysAbsent o.steering_wheel_position
        (Specification.migrate p o k).1.steering_wheel_position ∧
      (o.exteriorDimensions = none → ∃ k1,
        (Specification.migrate p o k).1.exteriorDimensions
          = some (ExteriorDimensions.fresh (some k) k1).1) ∧
      (o.engine = none → ∃ k1,
        (Specification.migrate p o k).1.engine = some (Engine.fresh (some k) k1).1) ∧
      (o.gearbox = none → ∃ k1,
        (Specification.migrate p o k).1.gearbox = some (Gearbox.fresh (some k) k1).1)) ∧
    (∀ p (o : Engine) k,
      absentStaysAbsent o.type (Engine.migrate p o k).1.type ∧
      absentStaysAbsent o.powerInKW (Engine.migrate p o k).1.powerInKW ∧
      absentStaysAbsent o.capacityInLiters (Engine.migrate p o k).1.capacityInLiters) ∧
    (∀ p (o : ExteriorDimensions) k,
      absentStaysAbsent o.lengthInMm (ExteriorDimensions.migrate p o k).1.lengthInMm ∧
      absentStaysAbsent o.widthInMm (ExteriorDimensions.migrate p o k).1.widthInMm ∧
      absentStaysAbsent o.heightInMm (ExteriorDimensions.migrate p o k).1.heightInMm) ∧
    (∀ p (o : Gearbox) k,
      absentStaysAbsent o.type (Gearbox.migrate p o k).1.type) ∧
    (∀ p (o : ServicePartner) k, o.service_partner_id = none →
      ∃ a, (ServicePartner.migrate p o k).1.service_partner_id = some a ∧
        a.value = none ∧ a.parentId = k) ∧
    (∀ si (o : Vehicle) k, o.capabilities = none →
      SkodaVehicle.migrate si o k = Except.error "AttributeError: capabilities") ∧
    (∀ si (o : Vehicle) k caps, o.capabilities = some caps → o.in_motion = none →
      SkodaVehicle.migrate si o k = Except.error "AttributeError: in_motion") ∧
    (∀ si (o : Vehicle) k, o.capabilities.isSome = true → o.in_motion.isSome = true →
      (si = true → o.car_images.isSome = true) →
      ∃ r, SkodaVehicle.migrate si o k = Except.ok r) ∧
    (∀ si o k v k2, SkodaVehicle.migrate si o k = Except.ok (v, k2) →
      absentStaysAbsent o.raw_api v.raw_api ∧
      absentStaysAbsent o.extras v.extras ∧
      absentStaysAbsent o.title v.title ∧
      absentStaysAbsent o.system_model_id v.system_model_id ∧
      absentStaysAbsent o.priority v.priority ∧
      absentStaysAbsent o.device_platform v.device_platform ∧
      absentStaysAbsent o.skoda_state v.skoda_state ∧
      absentStaysAbsent o.workshop_mode_enabled v.workshop_mode_enabled ∧
      absentStaysAbsent o.renders v.renders ∧
      absentStaysAbsent o.composite_renders v.composite_renders ∧
      absentStaysAbsent o.composite_render_urls v.composite_render_urls ∧
      (o.service_partner = none → v.service_partner = none) ∧
      (o.specification = none → v.specification.isSome = true)) := by
  refine ⟨?_, ?_, ?_, ?_, ?_, ?_, ?_, ?_, ?_⟩
  · intro p o k
    refine ⟨?_, ?_, ?_, ?_, ?_, ?_, ?_, ?_, ?_, ?_, ?_, ?_⟩
    · intro ha
      simp [Specification.migrate, copyAttributeFromOrigin, ha]
    · intro ha
      simp [Specification.migrate, copyAttributeFromOrigin, ha]
    · intro ha
      simp [Specification.migrate, copyAttributeFromOrigin, ha]
    · intro ha
      simp [Specification.migrate, copyAttributeFromOrigin, ha]
    · intro ha
      simp [Specification.migrate, copyAttributeFromOrigin, ha]
    · intro ha
      simp [Specification.migrate, copyAttributeFromOrigin, ha]
    · intro ha
      simp [Specification.migrate, copyAttributeFromOrigin, ha]
    · intro ha
      simp [Specification.migrate, copyAttributeFromOrigin, ha]
    · intro ha
      simp [Specification.migrate, copyAttributeFromOrigin, ha]
    · intro hd
      exact ⟨k + 1, by simp [Specification.migrate, hd]⟩
    · intro he
      cases hd : o.exteriorDimensions with
      | some d =>
        exact ⟨k + 2, by simp [Specification.migrate, hd, he, ExteriorDimensions.migrate]⟩
      | none =>
        exact ⟨k + 5, by simp [Specification.migrate, hd, he, ExteriorDimensions.fresh,
          mkAttribute]⟩
    · intro hg
      cases hd : o.exteriorDimensions with
      | some d =>
        cases he : o.engine with
        | some e =>
          exact ⟨k + 3, by simp [Specification.migrate, hd, he, hg,
            ExteriorDimensions.migrate, Engine.migrate]⟩
        | none =>
          exact ⟨k + 6, by simp [Specification.migrate, hd, he, hg,
            ExteriorDimensions.migrate, Engine.fresh, mkAttribute]⟩
      | none =>
        cases he : o.engine with
        | some e =>
          exact ⟨k + 6, by simp [Specification.migrate, hd, he, hg,
            ExteriorDimensions.fresh, Engine.migrate, mkAttribute]⟩
        | none =>
          exact ⟨k + 9, by simp [Specification.migrate, hd, he, hg,
            ExteriorDimensions.fresh, Engine.fresh, mkAttribute]⟩
  · intro p o k
    refine ⟨?_, ?_, ?_⟩ <;> intro ha <;>
      simp [Engine.migrate, copyAttributeFromOrigin, ha]
  · intro p o k
    refine ⟨?_, ?_, ?_⟩ <;> intro ha <;>
      simp [ExteriorDimensions.migrate, copyAttributeFromOrigin, ha]
  · intro p o k
    intro ha
    simp [Gearbox.migrate, copyAttributeFromOrigin, ha]
  · intro p o k h0
    refine ⟨{ objId := k + 1, name := "service_partner_id", parentId := k,
              value := none, tags := ["connector_custom"] }, ?_, rfl, rfl⟩
    simp [ServicePartner.migrate, mkAttribute, h0]
  · intro si o k hc
    simp [SkodaVehicle.migrate, SkodaVehicle.migrateCore, hc]
  · intro si o k caps hc hi
    simp [SkodaVehicle.migrate, SkodaVehicle.migrateCore, hc, hi]
  · intro si o k h1 h2 h3
    obtain ⟨caps, hc⟩ := Option.isSome_iff_exists.mp h1
    obtain ⟨im, hi⟩ := Option.isSome_iff_exists.mp h2
    have hcond : (si && o.car_images.isNone) = false := by
      cases si with
      | false => rfl
      | true =>
        obtain ⟨d, hd⟩ := Option.isSome_iff_exists.mp (h3 rfl)
        simp [hd]
    refine ⟨SkodaVehicle.migrateBody si VehicleType.generic o caps im k, ?_⟩
    simp [SkodaVehicle.migrate, SkodaVehicle.migrateCore, hc, hi, hcond]
  · intro si o k v k2 h
    obtain ⟨caps, im, hc, hi, heq⟩ :=
      migrateCore_ok_body si VehicleType.generic o k v k2 h
    have hv : v = (SkodaVehicle.migrateBody si VehicleType.generic o caps im k).1 :=
      congrArg Prod.fst heq
    subst hv
    refine ⟨?_, ?_, ?_, ?_, ?_, ?_, ?_, ?_, ?_, ?_, ?_, ?_, ?_⟩
    · intro ha
      simp [SkodaVehicle.migrateBody, copyAttributeFromOrigin, ha]
    · intro ha
      simp [SkodaVehicle.migrateBody, copyAttributeFromOrigin, ha]
    · intro ha
      simp [SkodaVehicle.migrateBody, copyAttributeFromOrigin, ha]
    · intro ha
      simp [SkodaVehicle.migrateBody, copyAttributeFromOrigin, ha]
    · intro ha
      simp [SkodaVehicle.migrateBody, copyAttributeFromOrigin, ha]
    · intro ha
      simp [SkodaVehicle.migrateBody, copyAttributeFromOrigin, ha]
    · intro ha
      simp [SkodaVehicle.migrateBody, copyAttributeFromOrigin, ha]
    · intro ha
      simp [SkodaVehicle.migrateBody, copyAttributeFromOrigin, ha]
    · intro ha
      simp [SkodaVehicle.migrateBody, copyAttributeFromOrigin, ha]
    · intro ha
      simp [SkodaVehicle.migrateBody, copyAttributeFromOrigin, ha]
    · intro ha
      simp [SkodaVehicle.migrateBody, copyAttributeFromOrigin, ha]
    · intro hs
      simp [SkodaVehicle.migrateBody, hs]
    · intro _
      rfl

/-- Witness for C1 (amended) at concrete origins: a specification origin
lacking `title` migrates with `title` absent; a vehicle origin lacking
`capabilities` makes migration raise; a service partner origin lacking its
identifier still gets a default identifier attribute. -/
theorem C1_amended_partial_origin_witness :
    (Specification.migrate (some 200) specOriginNoTitle 200).1.title = none ∧
    SkodaVehicle.migrate true vehicleOriginNoCaps 100
      = Except.error "AttributeError: capabilities" ∧
    (∃ a, (ServicePartner.migrate (some 100) spOriginNoId 100).1.service_partner_id = some a ∧
      a.value = none ∧ a.parentId = 100) :=
  ⟨(C1_amended_partial_origin.1 (some 200) specOriginNoTitle 200).1 rfl,
    C1_amended_partial_origin.2.2.2.2.2.1 true vehicleOriginNoCaps 100 rfl,
    C1_amended_partial_origin.2.2.2.2.1 (some 100) spOriginNoId 100 rfl⟩

/-- C2 (corrected) counterexample: migrating a vehicle whose origin has a
service partner (object id 30) yields a vehicle whose `service_partner` is the
origin's own object (still id 30, merely re-parented) — the sub-entity is
shared, not produced by the `ServicePartner` migration constructor. -/
theorem C2_nested_migration_counterexample :
    (SkodaVehicle.migrate false vehicleOriginFix 100).toOption.map
        (fun r => r.1.service_partner.map ServicePartner.objId) = some (some 30) ∧
    vehicleOriginFix.service_partner.map ServicePartner.objId = some 30 :=
  ⟨rfl, rfl⟩

/-- C2 (amended): the specification sub-entity of a migrated vehicle, and the
engine, exterior-dimensions and gearbox sub-entities of a migrated
specification, are each produced by invoking that sub-entity type's own
migration constructor on the origin's sub-entity, yielding a fresh object
distinct from the origin's; the service partner, by contrast, is adopted by
re-parenting the origin's own `ServicePartner` object onto the new vehicle. -/
theorem C2_amended_nested_migration :
    (∀ si o k v k2, SkodaVehicle.migrate si o k = Except.ok (v, k2) →
      (∀ os, o.specification = some os →
        (∃ k1, v.specification = some (Specification.migrate (some v.objId) os k1).1) ∧
        (os.objId < k → ∃ s, v.specification = some s ∧ s.objId ≠ os.objId)) ∧
      (∀ sp, o.service_partner = some sp →
        v.service_partner = some { sp with parentId := some v.objId })) ∧
    (∀ p (s : Specification) ks,
      (∀ d, s.exteriorDimensions = some d →
        (Specification.migrate p s ks).1.exteriorDimensions
          = some (ExteriorDimensions.migrate (some ks) d (ks + 1)).1 ∧
        (d.objId < ks → ∃ d2, (Specification.migrate p s ks).1.exteriorDimensions
          = some d2 ∧ d2.objId ≠ d.objId)) ∧
      (∀ e, s.engine = some e →
        (∃ k1, (Specification.migrate p s ks).1.engine
          = some (Engine.migrate (some ks) e k1).1) ∧
        (e.objId < ks → ∃ e2, (Specification.migrate p s ks).1.engine
          = some e2 ∧ e2.objId ≠ e.objId)) ∧
      (∀ g, s.gearbox = some g →
        (∃ k1, (Specification.migrate p s ks).1.gearbox
          = some (Gearbox.migrate (some ks) g k1).1) ∧
        (g.objId < ks → ∃ g2, (Specification.migrate p s ks).1.gearbox
          = some g2 ∧ g2.objId ≠ g.objId))) := by
  constructor
  · intro si o k v k2 h
    obtain ⟨caps, im, hc, hi, heq⟩ :=
      migrateCore_ok_body si VehicleType.generic o k v k2 h
    have hv : v = (SkodaVehicle.migrateBody si VehicleType.generic o caps im k).1 :=
      congrArg Prod.fst heq
    subst hv
    constructor
    · intro os hos
      constructor
      · cases hcl : o.climatization with
        | some c =>
          exact ⟨k + 2, by simp [SkodaVehicle.migrateBody, hos, hcl, Climatization.migrate]⟩
        | none =>
          exact ⟨k + 1, by simp [SkodaVehicle.migrateBody, hos, hcl]⟩
      · intro hlt
        cases hcl : o.climatization with
        | some c =>
          refine ⟨(Specification.migrate (some k) os (k + 2)).1,
            by simp [SkodaVehicle.migrateBody, hos, hcl, Climatization.migrate], ?_⟩
          have hobj : (Specification.migrate (some k) os (k + 2)).1.objId = k + 2 := rfl
          omega
        | none =>
          refine ⟨(Specification.migrate (some k) os (k + 1)).1,
            by simp [SkodaVehicle.migrateBody, hos, hcl], ?_⟩
          have hobj : (Specification.migrate (some k) os (k + 1)).1.objId = k + 1 := rfl
          omega
    · intro sp hsp
      simp [SkodaVehicle.migrateBody, hsp]
  · intro p s ks
    refine ⟨?_, ?_, ?_⟩
    · intro d hd
      refine ⟨by simp [Specification.migrate, hd], ?_⟩
      intro hlt
      refine ⟨(ExteriorDimensions.migrate (some ks) d (ks + 1)).1,
        by simp [Specification.migrate, hd], ?_⟩
      have hobj : (ExteriorDimensions.migrate (some ks) d (ks + 1)).1.objId = ks + 1 := rfl
      omega
    · intro e he
      cases hd : s.exteriorDimensions with
      | some d =>
        refine ⟨⟨ks + 2, by simp [Specification.migrate, hd, he, ExteriorDimensions.migrate]⟩, ?_⟩
        intro hlt
        refine ⟨(Engine.migrate (some ks) e (ks + 2)).1,
          by simp [Specification.migrate, hd, he, ExteriorDimensions.migrate], ?_⟩
        have hobj : (Engine.migrate (some ks) e (ks + 2)).1.objId = ks + 2 := rfl
        omega
      | none =>
        refine ⟨⟨ks + 5, by simp [Specification.migrate, hd, he, ExteriorDimensions.fresh,
          mkAttribute]⟩, ?_⟩
        intro hlt
        refine ⟨(Engine.migrate (some ks) e (ks + 5)).1,
          by simp [Specification.migrate, hd, he, ExteriorDimensions.fresh, mkAttribute], ?_⟩
        have hobj : (Engine.migrate (some ks) e (ks + 5)).1.objId = ks + 5 := rfl
        omega
    · intro g hg
      cases hd : s.exteriorDimensions with
      | some d =>
        cases he : s.engine with
        | some e =>
          refine ⟨⟨ks + 3, by simp [Specification.migrate, hd, he, hg,
            ExteriorDimensions.migrate, Engine.migrate]⟩, ?_⟩
          intro hlt
          refine ⟨(Gearbox.migrate (some ks) g (ks + 3)).1,
            by simp [Specification.migrate, hd, he, hg, ExteriorDimensions.migrate,
              Engine.migrate], ?_⟩
          have hobj : (Gearbox.migrate (some ks) g (ks + 3)).1.objId = ks + 3 := rfl
          omega
        | none =>
          refine ⟨⟨ks + 6, by simp [Specification.migrate, hd, he, hg,
            ExteriorDimensions.migrate, Engine.fresh, mkAttribute]⟩, ?_⟩
          intro hlt
          refine ⟨(Gearbox.migrate (some ks) g (ks + 6)).1,
            by simp [Specification.migrate, hd, he, hg, ExteriorDimensions.migrate,
              Engine.fresh, mkAttribute], ?_⟩
          have hobj : (Gearbox.migrate (some ks) g (ks + 6)).1.objId = ks + 6 := rfl
          omega
      | none =>
        cases he : s.engine with
        | some e =>
          refine ⟨⟨ks + 6, by simp [Specification.migrate, hd, he, hg,
            ExteriorDimensions.fresh, Engine.migrate, mkAttribute]⟩, ?_⟩
          intro hlt
          refine ⟨(Gearbox.migrate (some ks) g (ks + 6)).1,
            by simp [Specification.migrate, hd, he, hg, ExteriorDimensions.fresh,
              Engine.migrate, mkAttribute], ?_⟩
          have hobj : (Gearbox.migrate (some ks) g (ks + 6)).1.objId = ks + 6 := rfl
          omega
        | none =>
          refine ⟨⟨ks + 9, by simp [Specification.migrate, hd, he, hg,
            ExteriorDimensions.fresh, Engine.fresh, mkAttribute]⟩, ?_⟩
          intro hlt
          refine ⟨(Gearbox.migrate (some ks) g (ks + 9)).1,
            by simp [Specification.migrate, hd, he, hg, ExteriorDimensions.fresh,
              Engine.fresh, mkAttribute], ?_⟩
          have hobj : (Gearbox.migrate (some ks) g (ks + 9)).1.objId = ks + 9 := rfl
          omega

/-- Witness for C2 (amended) at the concrete origin fixture: the migrated
vehicle's specification is a fresh object (id different from the origin
specification's id 10), while its service partner is the origin's object
re-parented. -/
theorem C2_amended_nested_migration_witness :
    ∃ v k2, SkodaVehicle.migrate false vehicleOriginFix 100 = Except.ok (v, k2) ∧
      (∃ s, v.specification = some s ∧ s.objId ≠ 10) ∧
      v.service_partner = some { spOriginFix with parentId := some v.objId } := by
  obtain ⟨v, k2, hm⟩ :
      ∃ v k2, SkodaVehicle.migrate false vehicleOriginFix 100 = Except.ok (v, k2) :=
    ⟨_, _, rfl⟩
  obtain ⟨hspec, hsp⟩ := C2_amended_nested_migration.1 false vehicleOriginFix 100 v k2 hm
  exact ⟨v, k2, hm, (hspec specOriginFix rfl).2 (by decide), hsp spOriginFix rfl⟩

/-- C4 (confirmed): after every construction path of every Skoda vehicle class
— fresh construction or migration, for the generic, electric, combustion and
hybrid classes — the manufacturer attribute holds the literal brand string,
regardless of what the origin held. -/
theorem C4_brand_invariant :
    (∀ si k, (SkodaVehicle.fresh si k).1.manufacturer.value = some "Škoda") ∧
    (∀ si k, (SkodaElectricVehicle.fresh si k).1.manufacturer.value = some "Škoda") ∧
    (∀ si k, (SkodaCombustionVehicle.fresh si k).1.manufacturer.value = some "Škoda") ∧
    (∀ si k, (SkodaHybridVehicle.fresh si k).1.manufacturer.value = some "Škoda") ∧
    (∀ si o k v k2, SkodaVehicle.migrate si o k = Except.ok (v, k2) →
      v.manufacturer.value = some "Škoda") ∧
    (∀ si o k v k2, SkodaElectricVehicle.migrate si o k = Except.ok (v, k2) →
      v.manufacturer.value = some "Škoda") ∧
    (∀ si o k v k2, SkodaCombustionVehicle.migrate si o k = Except.ok (v, k2) →
      v.manufacturer.value = some "Škoda") ∧
    (∀ si o k v k2, SkodaHybridVehicle.migrate si o k = Except.ok (v, k2) →
      v.manufacturer.value = some "Škoda") := by
  refine ⟨fun si k => rfl, fun si k => rfl, fun si k => rfl, fun si k => rfl, ?_, ?_, ?_, ?_⟩
  · intro si o k v k2 h
    obtain ⟨caps, im, hc, hi, heq⟩ :=
      migrateCore_ok_body si VehicleType.generic o k v k2 h
    have hv : v = (SkodaVehicle.migrateBody si VehicleType.generic o caps im k).1 :=
      congrArg Prod.fst heq
    subst hv
    rfl
  · intro si o k v k2 h
    unfold SkodaElectricVehicle.migrate at h
    cases hm : SkodaVehicle.migrateCore si VehicleType.electric o k with
    | error e =>
      rw [hm] at h
      simp at h
    | ok vp =>
      rw [hm] at h
      obtain ⟨caps, im, hc, hi, heq⟩ :=
        migrateCore_ok_body si VehicleType.electric o k vp.1 vp.2 (by rw [hm])
      have hv1 : vp.1 = (SkodaVehicle.migrateBody si VehicleType.electric o caps im k).1 :=
        congrArg Prod.fst heq
      have hval : vp.1.manufacturer.value = some "Škoda" := by
        rw [hv1]
        rfl
      cases he : o.isElectricInstance with
      | true =>
        simp only [he, if_true] at h
        cases hch : o.charging with
        | none =>
          simp only [hch] at h
          simp at h
        | some oc =>
          simp only [hch] at h
          have hv := ok_fst h
          subst hv
          exact hval
      | false =>
        simp only [he, if_false] at h
        have hv := ok_fst h
        subst hv
        exact hval
  · intro si o k v k2 h
    obtain ⟨caps, im, hc, hi, heq⟩ :=
      migrateCore_ok_body si VehicleType.combustion o k v k2 h
    have hv : v = (SkodaVehicle.migrateBody si VehicleType.combustion o caps im k).1 :=
      congrArg Prod.fst heq
    subst hv
    rfl
  · intro si o k v k2 h
    unfold SkodaHybridVehicle.migrate at h
    cases hm : SkodaVehicle.migrateCore si VehicleType.hybrid o k with
    | error e =>
      rw [hm] at h
      simp at h
    | ok vp =>
      rw [hm] at h
      obtain ⟨caps, im, hc, hi, heq⟩ :=
        migrateCore_ok_body si VehicleType.hybrid o k vp.1 vp.2 (by rw [hm])
      have hv1 : vp.1 = (SkodaVehicle.migrateBody si VehicleType.hybrid o caps im k).1 :=
        congrArg Prod.fst heq
      have hval : vp.1.manufacturer.value = some "Škoda" := by
        rw [hv1]
        rfl
      have hv := ok_fst h
      subst hv
      exact hval

/-- Witness for C4 at a concrete origin: migrating a generic (non-electric)
origin into a `SkodaElectricVehicle` still ends with the brand string set. -/
theorem C4_brand_invariant_witness :
    ∃ v k2, SkodaElectricVehicle.migrate false vehicleOriginFix 100 = Except.ok (v, k2) ∧
      v.manufacturer.value = some "Škoda" := by
  obtain ⟨v, k2, hm⟩ :
      ∃ v k2, SkodaElectricVehicle.migrate false vehicleOriginFix 100 = Except.ok (v, k2) :=
    ⟨_, _, rfl⟩
  exact ⟨v, k2, hm, C4_brand_invariant.2.2.2.2.2.1 false vehicleOriginFix 100 v k2 hm⟩

/-- C5 (confirmed): a successfully constructed `SkodaElectricVehicle` always
has a non-null charging sub-entity; when the origin is an `ElectricVehicle`
instance the charging is migrated (via the `SkodaCharging` migration
constructor) from `origin.charging`, and when the origin is a different
subtype it is migrated from the new instance's own freshly defaulted
charging. -/
theorem C5_electric_charging (si : Bool) (o : Vehicle) (k : Nat) (v : Vehicle) (k2 : Nat)
    (h : SkodaElectricVehicle.migrate si o k = Except.ok (v, k2)) :
    v.charging.isSome = true ∧
    (∀ oc, o.isElectricInstance = true → o.charging = some oc →
      ∃ kk, v.charging = some (SkodaCharging.migrate v.objId oc kk).1) ∧
    (o.isElectricInstance = false →
      ∃ k1 kk, v.charging
        = some (SkodaCharging.migrate v.objId (Charging.fresh v.objId k1).1 kk).1) := by
  unfold SkodaElectricVehicle.migrate at h
  cases hm : SkodaVehicle.migrateCore si VehicleType.electric o k with
  | error e =>
    rw [hm] at h
    simp at h
  | ok vp =>
    rw [hm] at h
    cases he : o.isElectricInstance with
    | true =>
      simp only [he, if_true] at h
      cases hch : o.charging with
      | none =>
        simp only [hch] at h
        simp at h
      | some oc =>
        simp only [hch] at h
        have hv := ok_fst h
        subst hv
        refine ⟨rfl, ?_, ?_⟩
        · intro oc2 _ hoc2
          injection hoc2 with h2
          subst h2
          exact ⟨vp.2 + 1, rfl⟩
        · intro hfalse
          simp at hfalse
    | false =>
      simp only [he, if_false] at h
      have hv := ok_fst h
      subst hv
      refine ⟨rfl, ?_, ?_⟩
      · intro oc hel
        simp at hel
      · intro _
        exact ⟨vp.2, vp.2 + 1, rfl⟩

/-- Witness for C5 at concrete origins: an electric origin carrying charging
state and a generic origin with no charging data both yield a vehicle with a
charging sub-entity present. -/
theorem C5_electric_charging_witness :
    (∃ v k2, SkodaElectricVehicle.migrate false vehicleOriginElectric 100 = Except.ok (v, k2) ∧
      v.charging.isSome = true) ∧
    (∃ v k2, SkodaElectricVehicle.migrate false vehicleOriginFix 100 = Except.ok (v, k2) ∧
      v.charging.isSome = true) := by
  constructor
  · obtain ⟨v, k2, hm⟩ :
        ∃ v k2, SkodaElectricVehicle.migrate false vehicleOriginElectric 100
          = Except.ok (v, k2) :=
      ⟨_, _, rfl⟩
    exact ⟨v, k2, hm, (C5_electric_charging false vehicleOriginElectric 100 v k2 hm).1⟩
  · obtain ⟨v, k2, hm⟩ :
        ∃ v k2, SkodaElectricVehicle.migrate false vehicleOriginFix 100 = Except.ok (v, k2) :=
      ⟨_, _, rfl⟩
    exact ⟨v, k2, hm, (C5_electric_charging false vehicleOriginFix 100 v k2 hm).1⟩

/-- Field-level description of the legacy graft `specFromLegacy`: grafted
legacy attributes are re-parented onto the fresh specification, absent legacy
attributes leave the corresponding slot at its fresh-construction default
(absence for `engine_fuel_type`, a fresh empty attribute for the declared
fields), and the nested sub-entities are present fresh defaults. -/
theorem specFromLegacy_graft (selfId : Nat) (o : Vehicle) (k1 : Nat) :
    (∀ a, o.spec_engine_fuel_type = some a →
      (specFromLegacy selfId o k1).1.engine_fuel_type
        = some { a with parentId := (specFromLegacy selfId o k1).1.objId }) ∧
    (o.spec_engine_fuel_type = none →
      (specFromLegacy selfId o k1).1.engine_fuel_type = none) ∧
    (∀ a, o.spec_exterior_colour = some a →
      (specFromLegacy selfId o k1).1.exterior_colour
        = some { a with parentId := (specFromLegacy selfId o k1).1.objId }) ∧
    (o.spec_exterior_colour = none → ∃ b,
      (specFromLegacy selfId o k1).1.exterior_colour = some b ∧ b.value = none ∧
        b.parentId = (specFromLegacy selfId o k1).1.objId ∧ b.name = "exterior_colour") ∧
    (∀ a, o.spec_model_year = some a →
      (specFromLegacy selfId o k1).1.model_year
        = some { a with parentId := (specFromLegacy selfId o k1).1.objId }) ∧
    (o.spec_model_year = none → ∃ b,
      (specFromLegacy selfId o k1).1.model_year = some b ∧ b.value = none ∧
        b.parentId = (specFromLegacy selfId o k1).1.objId ∧ b.name = "model_year") ∧
    (∃ b, (specFromLegacy selfId o k1).1.title = some b ∧ b.value = none ∧
      b.parentId = (specFromLegacy selfId o k1).1.objId) ∧
    (specFromLegacy selfId o k1).1.exteriorDimensions.isSome = true ∧
    (specFromLegacy selfId o k1).1.engine.isSome = true ∧
    (specFromLegacy selfId o k1).1.gearbox.isSome = true := by
  refine ⟨?_, ?_, ?_, ?_, ?_, ?_, ?_, rfl, rfl, rfl⟩
  · intro a ha
    simp [specFromLegacy, Specification.fresh, mkAttribute, ha]
  · intro ha
    simp [specFromLegacy, Specification.fresh, mkAttribute, ha]
  · intro a ha
    simp [specFromLegacy, Specification.fresh, mkAttribute, ha]
  · intro ha
    refine ⟨{ objId := k1 + 7, name := "exterior_colour", parentId := k1, value := none,
              tags := ["connector_custom"] }, ?_, rfl, ?_, rfl⟩
    · simp [specFromLegacy, Specification.fresh, mkAttribute, ha]
    · rfl
  · intro a ha
    simp [specFromLegacy, Specification.fresh, mkAttribute, ha]
  · intro ha
    refine ⟨{ objId := k1 + 8, name := "model_year", parentId := k1, value := none,
              tags := ["connector_custom"] }, ?_, rfl, ?_, rfl⟩
    · simp [specFromLegacy, Specification.fresh, mkAttribute, ha]
    · rfl
  · refine ⟨{ objId := k1 + 1, name := "title", parentId := k1, value := none,
              tags := ["connector_custom"] }, ?_, rfl, ?_⟩
    · simp [specFromLegacy, Specification.fresh, mkAttribute]
    · rfl

/-- C10 (confirmed): a vehicle migrated from an origin with no `specification`
sub-entity gets a fresh default `Specification`, onto which any legacy flat
attributes `spec_engine_fuel_type`, `spec_exterior_colour`, `spec_model_year`
present on the origin are individually re-parented as `engine_fuel_type`,
`exterior_colour` and `model_year`; legacy fields the origin lacks stay at
their fresh defaults. -/
theorem C10_legacy_spec_graft (si : Bool) (o : Vehicle) (k : Nat) (v : Vehicle) (k2 : Nat)
    (h : SkodaVehicle.migrate si o k = Except.ok (v, k2)) (hs : o.specification = none) :
    ∃ s k1, v.specification = some s ∧ s = (specFromLegacy v.objId o k1).1 ∧
      (∀ a, o.spec_engine_fuel_type = some a →
        s.engine_fuel_type = some { a with parentId := s.objId }) ∧
      (o.spec_engine_fuel_type = none → s.engine_fuel_type = none) ∧
      (∀ a, o.spec_exterior_colour = some a →
        s.exterior_colour = some { a with parentId := s.objId }) ∧
      (o.spec_exterior_colour = none → ∃ b, s.exterior_colour = some b ∧ b.value = none ∧
        b.parentId = s.objId ∧ b.name = "exterior_colour") ∧
      (∀ a, o.spec_model_year = some a →
        s.model_year = some { a with parentId := s.objId }) ∧
      (o.spec_model_year = none → ∃ b, s.model_year = some b ∧ b.value = none ∧
        b.parentId = s.objId ∧ b.name = "model_year") ∧
      (∃ b, s.title = some b ∧ b.value = none ∧ b.parentId = s.objId) ∧
      s.exteriorDimensions.isSome = true ∧ s.engine.isSome = true ∧
      s.gearbox.isSome = true := by
  obtain ⟨caps, im, hc, hi, heq⟩ :=
    migrateCore_ok_body si VehicleType.generic o k v k2 h
  have hv : v = (SkodaVehicle.migrateBody si VehicleType.generic o caps im k).1 :=
    congrArg Prod.fst heq
  subst hv
  cases hcl : o.climatization with
  | some c =>
    exact ⟨(specFromLegacy k o (k + 2)).1, k + 2,
      by simp [SkodaVehicle.migrateBody, hs, hcl, Climatization.migrate], rfl,
      specFromLegacy_graft k o (k + 2)⟩
  | none =>
    exact ⟨(specFromLegacy k o (k + 1)).1, k + 1,
      by simp [SkodaVehicle.migrateBody, hs, hcl], rfl,
      specFromLegacy_graft k o (k + 1)⟩

/-- Witness for C10 at a concrete origin with no specification but with legacy
`spec_exterior_colour` and `spec_model_year` attributes set and
`spec_engine_fuel_type` absent. -/
theorem C10_legacy_spec_graft_witness :
    ∃ v k2, SkodaVehicle.migrate false vehicleOriginLegacy 100 = Except.ok (v, k2) ∧
      ∃ s k1, v.specification = some s ∧ s = (specFromLegacy v.objId vehicleOriginLegacy k1).1 ∧
        s.exterior_colour
          = some { attrFix 39 "spec_exterior_colour" 1 (some "red") with parentId := s.objId } ∧
        s.engine_fuel_type = none := by
  obtain ⟨v, k2, hm⟩ :
      ∃ v k2, SkodaVehicle.migrate false vehicleOriginLegacy 100 = Except.ok (v, k2) :=
    ⟨_, _, rfl⟩
  obtain ⟨s, k1, h1, h2, _, h4, h5, _⟩ :=
    C10_legacy_spec_graft false vehicleOriginLegacy 100 v k2 hm rfl
  exact ⟨v, k2, hm, s, k1, h1, h2, h5 _ rfl, h4 rfl⟩
